import Mathlib

/-!
Verification of the Sora ad-generation orchestrator

Shallow embedding of the asynchronous job-orchestration core of the
repository (job store, callback correlator, merge scheduler, dispatcher)
translated from the JavaScript sources:

* `src/services/redisService.js`   (store: jobs, task mappings)
* `src/services/soraService.js`    (payload extractors)
* `src/services/jobProcessor.js`   (callback correlator, stitching, failure
  handler — the file concatenated into `airtableService.js` in the snapshot)
* `src/services/videoService.js`   (download/stitch workflow, concurrency
  control)
* `src/controllers/videoController.js` (dispatch)

Modelling conventions:

* The Upstash Redis keyspace uses the disjoint prefixes `job:` and `task:`;
  we model it as two association lists keyed by the raw ids.
* `Date.now()` is abstracted as a `now : Nat` parameter supplied per call;
  all timestamps taken inside one handler invocation share it.
* Redis TTL (`{ ex: config.job.ttl }`) only matters for expiry, which the
  verified claims treat as "mapping/job absent"; the store model therefore
  keeps no clocks.
* JavaScript truthiness of the string-or-absent fields that the code tests
  with `!!`, `||` and `if (x)` is modelled by `jsTruthy` (absent and the
  empty string are falsy).
* External effects (Sora API calls, ffmpeg, Airtable HTTP) are inputs: each
  call site takes the collaborator's outcome as an explicit parameter, and
  observable side effects (merge-pipeline starts, Airtable uploads and
  record-status updates) are recorded in the `World` state.
-/

/-- JS truthiness of an optional string field (`undefined`/`null` and `""`
are falsy, every other string truthy). -/
def jsTruthy : Option String → Bool
  | none => false
  | some s => s ≠ ""

/-- JS `a || b` on an optional string with a string default
(`taskData.failMsg || 'Unknown error'`). -/
def jsOr (o : Option String) (d : String) : String :=
  match o with
  | none => d
  | some s => if s = "" then d else s

/-- JS `x || null` on an optional string (`resultJson?.resultUrls?.[0] || null`). -/
def jsOrNull (o : Option String) : Option String :=
  match o with
  | none => none
  | some s => if s = "" then none else some s

/-- Decidable equality for collaborator outcomes (used by concrete
evaluations). -/
instance : DecidableEq (Except String String) := fun x y =>
  match x, y with
  | .error a, .error b =>
      if h : a = b then .isTrue (by rw [h])
      else .isFalse (by intro hc; injection hc; exact h (by assumption))
  | .error _, .ok _ => .isFalse (by intro hc; cases hc)
  | .ok _, .error _ => .isFalse (by intro hc; cases hc)
  | .ok a, .ok b =>
      if h : a = b then .isTrue (by rw [h])
      else .isFalse (by intro hc; injection hc; exact h (by assumption))

/-- Association-list lookup (the model of a `redis.get` on one namespace). -/
def getEntry {α : Type} (l : List (String × α)) (k : String) : Option α :=
  match l with
  | [] => none
  | (k', v) :: rest => if k = k' then some v else getEntry rest k

/-- Association-list overwrite (the model of a `redis.set`). -/
def setEntry {α : Type} (l : List (String × α)) (k : String) (v : α) :
    List (String × α) :=
  match l with
  | [] => [(k, v)]
  | (k', v') :: rest =>
      if k = k' then (k, v) :: rest else (k', v') :: setEntry rest k v

/-- A job record as stored under `job:{jobId}` (the JSON blob created by the
dispatcher and mutated by spread-merges in `redisService.updateJob`). -/
structure Job where
  jobId : String
  status : String
  createdAt : Nat
  updatedAt : Option Nat := none
  prompt1 : String := ""
  prompt2 : String := ""
  recordId : Option String := none
  aspectRatio : String := "landscape"
  taskId1 : Option String := none
  taskId2 : Option String := none
  video1Url : Option String := none
  video2Url : Option String := none
  video1Status : Option String := none
  video2Status : Option String := none
  error : Option String := none
  failedAt : Option Nat := none
  completedAt : Option Nat := none
  stitchedVideoPath : Option String := none
  deriving Repr, DecidableEq

/-- A task mapping as stored under `task:{taskId}`
(`redisService.mapTaskToJob`). -/
structure TaskMapping where
  jobId : String
  videoNumber : Nat
  deriving Repr, DecidableEq

/-- The Redis service: `available = false` models the unconfigured state in
which `this.redis === null` (`redisService.js` constructor). The two lists
model the `job:` and `task:` key namespaces. -/
structure RedisService where
  available : Bool
  jobs : List (String × Job) := []
  tasks : List (String × TaskMapping) := []
  deriving Repr, DecidableEq

namespace RedisService

/-- `redisService.getJob`: `null` when Redis is unavailable or the key is
absent (internal errors are caught and also return `null`). -/
def getJob (svc : RedisService) (jobId : String) : Option Job :=
  if svc.available then getEntry svc.jobs jobId else none

/-- `redisService.createJob`: warns and persists nothing when unavailable
(returns `undefined`, modelled `none`); otherwise writes the job record with
`status: 'pending'` and `createdAt` and returns it. The initial record is
built at the call site (`{jobId, status: 'pending', createdAt, ...data}`). -/
def createJob (svc : RedisService) (jobId : String) (jobData : Job) :
    RedisService × Option Job :=
  if svc.available then
    ({ svc with jobs := setEntry svc.jobs jobId jobData }, some jobData)
  else (svc, none)

/-- `redisService.updateJob`: read-merge-write. `f` is the spread-merge
`{...job, ...updates}` of the call site; `updatedAt` is then stamped. When
Redis is unavailable, warns and returns `undefined`; when the job is absent,
returns `null` — both modelled `none`, with the store unchanged. -/
def updateJob (svc : RedisService) (now : Nat) (jobId : String)
    (f : Job → Job) : RedisService × Option Job :=
  if svc.available then
    match getEntry svc.jobs jobId with
    | none => (svc, none)
    | some job =>
        let updated := { f job with updatedAt := some now }
        ({ svc with jobs := setEntry svc.jobs jobId updated }, some updated)
  else (svc, none)

/-- `redisService.mapTaskToJob`: no-op when unavailable, else writes the
`task:{taskId}` mapping. -/
def mapTaskToJob (svc : RedisService) (taskId jobId : String)
    (videoNumber : Nat) : RedisService :=
  if svc.available then
    { svc with tasks := setEntry svc.tasks taskId ⟨jobId, videoNumber⟩ }
  else svc

/-- `redisService.getJobFromTask`: `null` when unavailable or absent
(errors are caught and return `null`). -/
def getJobFromTask (svc : RedisService) (taskId : String) :
    Option TaskMapping :=
  if svc.available then getEntry svc.tasks taskId else none

/-- The spread `{[`video${n}Url`]: url}` used by `storeVideoUrl`; the
dispatcher only ever creates mappings with `videoNumber` 1 or 2. -/
def setVideoUrl (n : Nat) (url : String) (j : Job) : Job :=
  if n = 1 then { j with video1Url := some url }
  else if n = 2 then { j with video2Url := some url }
  else j

/-- The spread `{status: 'processing', [`video${n}Status`]: 'ready'}` used
by the waiting branch of `processCallback`. -/
def setProcessingStatus (n : Nat) (j : Job) : Job :=
  if n = 1 then { j with status := "processing", video1Status := some "ready" }
  else if n = 2 then
    { j with status := "processing", video2Status := some "ready" }
  else { j with status := "processing" }

/-- `redisService.storeVideoUrl`: `updateJob(jobId, {[`video${n}Url`]: url})`. -/
def storeVideoUrl (svc : RedisService) (now : Nat) (jobId : String)
    (videoNumber : Nat) (url : String) : RedisService × Option Job :=
  svc.updateJob now jobId (setVideoUrl videoNumber url)

/-- `redisService.areBothVideosReady`:
`!!(job.video1Url && job.video2Url)` after a `getJob`, `false` when the job
is absent. -/
def areBothVideosReady (svc : RedisService) (jobId : String) : Bool :=
  match svc.getJob jobId with
  | none => false
  | some job => jsTruthy job.video1Url && jsTruthy job.video2Url

end RedisService

/-- The error object returned by `soraService.getTaskError`. -/
structure TaskError where
  code : Option String
  message : String
  deriving Repr, DecidableEq

/-- A Sora callback payload (`taskData`). `resultJson` is the parsed
`resultUrls` array; `none` stands for an absent or unparseable
`resultJson` (the `JSON.parse` failure is caught and yields `null`). -/
structure TaskData where
  state : String
  resultJson : Option (List String) := none
  failCode : Option String := none
  failMsg : Option String := none
  deriving Repr, DecidableEq

/-- `soraService.getTaskError`: an error object iff `state === 'fail'`,
with `message = failMsg || 'Unknown error'`. -/
def getTaskError (td : TaskData) : Option TaskError :=
  if td.state = "fail" then
    some ⟨td.failCode, jsOr td.failMsg "Unknown error"⟩
  else none

/-- `soraService.extractVideoUrl`: `null` unless `state === 'success'`,
else `resultJson?.resultUrls?.[0] || null`. -/
def extractVideoUrl (td : TaskData) : Option String :=
  if td.state = "success" then
    match td.resultJson with
    | none => none
    | some urls => jsOrNull urls.head?
  else none

/-- The world observed by the orchestrator: the Redis store plus the
externally observable effects — how many times the merge pipeline
(`videoService.processVideos`) was entered, how many Airtable video
attachments were uploaded, and the log of
`airtableService.updateRecordStatus(recordId, status, error)` calls (the
code sets the `Error` field only when the error argument is truthy). -/
structure World where
  redis : RedisService
  stitchStarts : Nat := 0
  uploadCount : Nat := 0
  recordUpdates : List (String × String × Option String) := []
  deriving Repr, DecidableEq

/-- `airtableService.updateRecordStatus`: fire-and-forget record-store
update (its own errors are caught and only logged, so it never throws). -/
def updateRecordStatus (w : World) (recordId status : String)
    (error : Option String) : World :=
  { w with recordUpdates :=
      w.recordUpdates ++
        [(recordId, status, if jsTruthy error then error else none)] }

/-- `jobProcessor.handleJobFailure(jobId, job, errorMessage)`: marks the job
failed (`status: 'failed'`, `error`, `failedAt`) and, when the passed job
object has a truthy `recordId` (`job?.recordId`), propagates `'Failed'` to
the Airtable record. Its own errors are caught, so it never throws. -/
def handleJobFailure (w : World) (now : Nat) (jobId : String)
    (job : Option Job) (errorMessage : String) : World :=
  let w1 := { w with redis := (w.redis.updateJob now jobId (fun j =>
      { j with status := "failed", error := some errorMessage,
               failedAt := some now })).1 }
  match job with
  | none => w1
  | some j =>
      if jsTruthy j.recordId then
        updateRecordStatus w1 (j.recordId.getD "") "Failed"
          (some errorMessage)
      else w1

/-- `jobProcessor.processStitching(jobId)`, with the outcomes of the two
external operations passed in: `stitch` is the result of
`videoService.processVideos` (`.ok path` or the thrown message) and
`upload` the result of `airtableService.uploadVideoAttachment`. The
`catch` block deletes the stitched file if it exists, reloads the job and
calls `handleJobFailure` with `Stitching/upload failed: …`, then rethrows
(the rethrow leaves the world unchanged). -/
def processStitching (w : World) (now : Nat) (jobId : String)
    (stitch : Except String String) (upload : Except String Unit) : World :=
  match w.redis.getJob jobId with
  | none =>
      -- `throw new Error('Job not found')`; in the catch `stitchedVideoPath`
      -- is still null and the fresh `getJob` is again absent.
      handleJobFailure w now jobId none "Stitching/upload failed: Job not found"
  | some job =>
      let w1 := { w with redis := (w.redis.updateJob now jobId
          (fun j => { j with status := "stitching" })).1 }
      let w2 := if jsTruthy job.recordId then
          updateRecordStatus w1 (job.recordId.getD "") "Stitching" none
        else w1
      -- `videoService.processVideos(video1Url, video2Url)` is invoked here.
      let w3 := { w2 with stitchStarts := w2.stitchStarts + 1 }
      match stitch with
      | .error msg =>
          let fresh := w3.redis.getJob jobId
          handleJobFailure w3 now jobId fresh
            ("Stitching/upload failed: " ++ msg)
      | .ok _ =>
          if jsTruthy job.recordId then
            let w4 := { w3 with redis := (w3.redis.updateJob now jobId
                (fun j => { j with status := "uploading" })).1 }
            match upload with
            | .error msg =>
                let fresh := w4.redis.getJob jobId
                handleJobFailure w4 now jobId fresh
                  ("Stitching/upload failed: " ++ msg)
            | .ok _ =>
                let w5 := { w4 with uploadCount := w4.uploadCount + 1 }
                let w6 := updateRecordStatus w5 (job.recordId.getD "")
                    "Completed" none
                { w6 with redis := (w6.redis.updateJob now jobId (fun j =>
                    { j with status := "completed", completedAt := some now,
                             stitchedVideoPath :=
                               some (stitch.toOption.getD "") })).1 }
          else
            { w3 with redis := (w3.redis.updateJob now jobId (fun j =>
                { j with status := "completed", completedAt := some now,
                         stitchedVideoPath :=
                           some (stitch.toOption.getD "") })).1 }

/-- `jobProcessor.processCallback(taskId, taskData)`, the callback
correlator. Pipeline outcomes for a possible stitching run are passed as
`stitch`/`upload`. Translated branch by branch from the source: resolve the
task mapping (absent → return), load the job (absent → return), check
`getTaskError` (fail-fast via `handleJobFailure`), extract the video URL
(absent → `handleJobFailure`), store the URL, then either start stitching
when `areBothVideosReady` or record `status: 'processing'` and the slot's
`ready` marker. Note: the source performs no terminal-status check on the
loaded job. -/
def processCallback (w : World) (now : Nat) (taskId : String)
    (td : TaskData) (stitch : Except String String)
    (upload : Except String Unit) : World :=
  match w.redis.getJobFromTask taskId with
  | none => w
  | some m =>
      match w.redis.getJob m.jobId with
      | none => w
      | some job =>
          match getTaskError td with
          | some err =>
              handleJobFailure w now m.jobId (some job)
                ("Video " ++ toString m.videoNumber ++
                  " generation failed: " ++ err.message)
          | none =>
              match extractVideoUrl td with
              | none =>
                  handleJobFailure w now m.jobId (some job)
                    ("Video " ++ toString m.videoNumber ++
                      " generation completed but no URL found")
              | some url =>
                  let w1 := { w with redis :=
                      (w.redis.storeVideoUrl now m.jobId m.videoNumber url).1 }
                  if w1.redis.areBothVideosReady m.jobId then
                    processStitching w1 now m.jobId stitch upload
                  else
                    { w1 with redis := (w1.redis.updateJob now m.jobId
                        (RedisService.setProcessingStatus m.videoNumber)).1 }

/-- The HTTP responses of `videoController.generateAndStitch`. -/
inductive HttpResponse where
  | badRequest (error : String)
  | accepted (jobId taskId1 taskId2 : String)
  | serverError (error : String)
  deriving Repr, DecidableEq

/-- `soraService.createTask`: the outcome of the underlying API call is an
input; on failure the service rethrows with the `Failed to create Sora
task:` prefix. -/
def createTask (api : Except String String) : Except String String :=
  match api with
  | .ok taskId => .ok taskId
  | .error m => .error ("Failed to create Sora task: " ++ m)

/-- The `{ recordId }` object literal the controller passes to
`handleJobFailure` on dispatch failure. -/
def recordStub (recordId : Option String) : Job :=
  { jobId := "", status := "", createdAt := 0, recordId := recordId }

/-- The job data the dispatcher hands to `createJob`
(`{prompt1, prompt2, recordId, aspectRatio, status: 'pending'}`, with the
id and `createdAt` added by `createJob`). -/
def initialJob (now : Nat) (prompt1 prompt2 : String)
    (recordId : Option String) (aspectRatio jobId : String) : Job :=
  { jobId := jobId, status := "pending", createdAt := now,
    prompt1 := prompt1, prompt2 := prompt2, recordId := recordId,
    aspectRatio := aspectRatio }

/-- `videoController.generateAndStitch`, the render dispatcher.
`api1`/`api2` are the outcomes of the two `soraService.createTask` API
calls (run under `Promise.all`; when the first fails its rejection wins,
matching the model's ordering). On any throw the controller calls
`jobProcessor.handleJobFailure(jobId, { recordId }, error.message)` and
responds 500 with that message; on success it records both task mappings,
stores the task ids with `status: 'generating'`, and responds 202 with
the job id. No retry of a failed submission appears anywhere on the path. -/
def generateAndStitch (w : World) (now : Nat) (prompt1 prompt2 : String)
    (recordId : Option String) (aspectRatio : String) (jobId : String)
    (api1 api2 : Except String String) : World × HttpResponse :=
  if prompt1 = "" ∨ prompt2 = "" then
    (w, .badRequest "Both prompt1 and prompt2 are required")
  else
    let initJob : Job :=
      initialJob now prompt1 prompt2 recordId aspectRatio jobId
    let w1 := { w with redis := (w.redis.createJob jobId initJob).1 }
    match createTask api1 with
    | .error msg =>
        (handleJobFailure w1 now jobId (some (recordStub recordId)) msg,
         .serverError msg)
    | .ok t1 =>
        match createTask api2 with
        | .error msg =>
            (handleJobFailure w1 now jobId (some (recordStub recordId)) msg,
             .serverError msg)
        | .ok t2 =>
            let w2 := { w1 with redis := w1.redis.mapTaskToJob t1 jobId 1 }
            let w3 := { w2 with redis := w2.redis.mapTaskToJob t2 jobId 2 }
            let w4 := { w3 with redis := (w3.redis.updateJob now jobId
                (fun j => { j with taskId1 := some t1, taskId2 := some t2,
                                   status := "generating" })).1 }
            (w4, .accepted jobId t1 t2)

/-!
The merge scheduler (`videoService.withConcurrencyControl`)

`videoService` serializes ffmpeg runs with a boolean `isProcessing` flag
and a FIFO `queue` (`push` at the tail, `shift` from the head); the
`maxConcurrentJobs = 1` constant records the intended worker count.
Downloads (`downloadVideo`, run under `Promise.all` in `processVideos`)
happen outside this control. We model the service as a labelled transition
system: JavaScript's single-threaded run-to-completion semantics makes
each synchronous section one atomic step.
-/

/-- `this.maxConcurrentJobs = 1` (`videoService.js` constructor). -/
def maxConcurrentJobs : Nat := 1

/-- Scheduler state: the `isProcessing` flag, the FIFO `queue` of waiting
merge operations, the set of merge operations currently inside
`operation()`, and the downloads currently in flight (not governed by the
flag). Operations are identified by numbers. -/
structure SchedState where
  isProcessing : Bool
  queue : List Nat
  running : List Nat
  downloads : List Nat
  deriving Repr, DecidableEq

/-- The scheduler's initial state (fresh `VideoService`). -/
def initSched : SchedState :=
  { isProcessing := false, queue := [], running := [], downloads := [] }

/-- One atomic step of `videoService`:

* `enqueue`: `withConcurrencyControl` called while `isProcessing` — the
  operation is pushed onto the tail of `queue` and its promise parked.
* `start`: `withConcurrencyControl` called while idle — the flag is set
  and `operation()` begins at once.
* `finish`: a running operation settles; the `finally` block synchronously
  clears the flag and, if the queue is non-empty, shifts its head and
  re-enters `withConcurrencyControl`, which starts it immediately.
* `startDownload` / `finishDownload`: `downloadVideo` runs are unguarded
  and permitted in every state. -/
inductive SchedStep : SchedState → SchedState → Prop where
  | enqueue (op : Nat) (s : SchedState) (h : s.isProcessing = true) :
      SchedStep s { s with queue := s.queue ++ [op] }
  | start (op : Nat) (s : SchedState) (h : s.isProcessing = false) :
      SchedStep s { s with isProcessing := true, running := s.running ++ [op] }
  | finish (op : Nat) (s : SchedState) (rest : List Nat)
      (h : s.running = op :: rest) :
      SchedStep s (match s.queue with
        | [] => { s with isProcessing := false, running := rest }
        | next :: qs =>
            { s with isProcessing := true, running := rest ++ [next],
                     queue := qs })
  | startDownload (d : Nat) (s : SchedState) :
      SchedStep s { s with downloads := s.downloads ++ [d] }
  | finishDownload (d : Nat) (s : SchedState) :
      SchedStep s { s with downloads := s.downloads.erase d }

/-- States reachable from a fresh `VideoService`. -/
inductive SchedReachable : SchedState → Prop where
  | init : SchedReachable initSched
  | step {s s' : SchedState} (hs : SchedReachable s) (h : SchedStep s s') :
      SchedReachable s'

/-- The inductive invariant of the scheduler: the flag is an exact mutex
for the running set. -/
def SchedInv (s : SchedState) : Prop :=
  (s.isProcessing = false → s.running = []) ∧
  (s.isProcessing = true → s.running.length = 1)

/-!
The download/stitch workflow (`videoService.processVideos`)

Modelled over an abstract local file system (the multiset of file names in
the temp directory), with the outcomes of the two downloads and of the
ffmpeg run as inputs. The deterministic file names of the source are kept
(`video1_${ts}.mp4`, `video2_${ts}.mp4`, `stitched_${ts}.mp4`,
`concat_${ts}.txt`; the concat list's own `Date.now()` is identified with
the workflow timestamp).
-/

/-- Abstract temp-directory contents. -/
abbrev FS := List String

/-- `fs.remove(path)` (never throws; removing an absent file is a no-op). -/
def fsRemove (fs : FS) (p : String) : FS :=
  List.filter (fun q => q ≠ p) fs

/-- `fs` write: the file appears (overwriting any previous version). -/
def fsWrite (fs : FS) (p : String) : FS :=
  fsRemove fs p ++ [p]

/-- `videoService.deleteFiles`: sequential `deleteFile` over a list. -/
def fsRemoveAll (fs : FS) (ps : List String) : FS :=
  ps.foldl fsRemove fs

/-- Outcome of a single `downloadVideo` call: the axios request can fail
before the write stream is created (no file appears), the stream can error
after the file was created (a partial file remains and the promise
rejects), or the download completes. -/
inductive DownloadOutcome where
  | failEarly
  | failStream
  | ok
  deriving Repr, DecidableEq

/-- Whether the download attempt leaves a file on disk. -/
def DownloadOutcome.writes : DownloadOutcome → Bool
  | .failEarly => false
  | .failStream => true
  | .ok => true

/-- Whether the download promise resolves. -/
def DownloadOutcome.succeeds : DownloadOutcome → Bool
  | .failEarly => false
  | .failStream => false
  | .ok => true

/-- `videoService.stitchVideos`: writes the ffmpeg concat list file, then
runs ffmpeg. On `end` it removes the list file and resolves with the
output path; on `error` it removes the list file and the (partial) output
and rejects. -/
def stitchVideos (fs : FS) (_v1Path _v2Path outPath listPath : String)
    (ffmpegOk : Bool) : FS × Except String String :=
  let fs1 := fsWrite fs listPath
  if ffmpegOk then
    (fsRemove (fsWrite fs1 outPath) listPath, .ok outPath)
  else
    (fsRemove (fsRemove (fsWrite fs1 outPath) listPath) outPath,
     .error "Failed to stitch videos: ffmpeg error")

/-- `videoService.processVideos(url1, url2)`: downloads both inputs under
`Promise.all`, stitches under `withConcurrencyControl`, deletes the two
inputs on success, and in its `catch` deletes
`[video1Path, video2Path, stitchedPath].filter(Boolean)`.

Crucially, as in the source, the destructuring assignment
`[video1Path, video2Path] = await Promise.all([...])` only binds the path
variables when *both* downloads resolve: when `Promise.all` rejects, the
catch block's `filesToClean` is empty even though download attempts may
already have created files on disk. -/
def processVideos (fs : FS) (ts : Nat) (o1 o2 : DownloadOutcome)
    (ffmpegOk : Bool) : FS × Except String String :=
  let v1 := "video1_" ++ toString ts ++ ".mp4"
  let v2 := "video2_" ++ toString ts ++ ".mp4"
  let out := "stitched_" ++ toString ts ++ ".mp4"
  let lst := "concat_" ++ toString ts ++ ".txt"
  -- both download attempts run; files appear according to their outcomes
  let fs1 := if o1.writes then fsWrite fs v1 else fs
  let fs2 := if o2.writes then fsWrite fs1 v2 else fs1
  if o1.succeeds && o2.succeeds then
    let (fs3, r) := stitchVideos fs2 v1 v2 out lst ffmpegOk
    match r with
    | .ok path => (fsRemoveAll fs3 [v1, v2], .ok path)
    | .error m =>
        -- catch: stitchedPath is unassigned (the await threw), so
        -- filesToClean = [video1Path, video2Path]
        (fsRemoveAll fs3 [v1, v2], .error m)
  else
    -- Promise.all rejected: video1Path/video2Path were never assigned,
    -- so filesToClean = [].filter(Boolean) = [] and nothing is deleted
    (fs2, .error "Failed to download video: request failed")

/-- The two slot fields of a job record. -/
def slotsOf (j : Job) : Option String × Option String :=
  (j.video1Url, j.video2Url)

/-!
Concrete fixtures used by witnesses and counterexamples
-/

/-- A Success callback payload carrying one result URL. -/
def tdSuccess (u : String) : TaskData :=
  { state := "success", resultJson := some [u] }

/-- A Failure callback payload with a failure message. -/
def tdFail (msg : String) : TaskData :=
  { state := "fail", failCode := some "500", failMsg := some msg }

/-- A freshly dispatched job with both slots empty. -/
def c1Job : Job := { jobId := "j", status := "generating", createdAt := 0 }

/-- World right after dispatch of job `j` with tasks `t1`, `t2`. -/
def c1World : World :=
  { redis := { available := true, jobs := [("j", c1Job)],
               tasks := [("t1", ⟨"j", 1⟩), ("t2", ⟨"j", 2⟩)] } }

/-- A job that reached the terminal status `failed` (slot 1 failed before
slot 2 resolved), its task-2 mapping still live in the store. -/
def c2Job : Job :=
  { jobId := "j", status := "failed", createdAt := 0,
    error := some "Video 1 generation failed: boom", failedAt := some 3 }

/-- World holding the terminal job `j` and the live mapping for `t2`. -/
def c2World : World :=
  { redis := { available := true, jobs := [("j", c2Job)],
               tasks := [("t2", ⟨"j", 2⟩)] } }

/-- An awaiting job with slot 2 already successful and an Airtable record. -/
def c3Job : Job :=
  { jobId := "j", status := "processing", createdAt := 0,
    recordId := some "rec", video2Url := some "https://v2",
    video2Status := some "ready" }

/-- World for the fail-fast witness. -/
def c3World : World :=
  { redis := { available := true, jobs := [("j", c3Job)],
               tasks := [("t1", ⟨"j", 1⟩), ("t2", ⟨"j", 2⟩)] } }

/-- A job that already completed with both slots filled; its task mappings
are still live (`processCallback` never consumes them). -/
def c4Job : Job :=
  { jobId := "j", status := "completed", createdAt := 0,
    video1Url := some "https://v1", video2Url := some "https://v2",
    completedAt := some 7 }

/-- World after job `j` completed once (one merge pipeline run recorded). -/
def c4World : World :=
  { redis := { available := true, jobs := [("j", c4Job)],
               tasks := [("t1", ⟨"j", 1⟩), ("t2", ⟨"j", 2⟩)] },
    stitchStarts := 1, uploadCount := 1 }

/-- World with one live job and no mapping for the task id `tx`. -/
def c5World : World :=
  { redis := { available := true, jobs := [("j", c1Job)],
               tasks := [("t1", ⟨"j", 1⟩)] } }

/-- A world whose store is available but empty (fresh dispatch target). -/
def c8World : World := { redis := { available := true } }

/-- A world whose Redis is not configured (`this.redis === null`). -/
def c9World : World :=
  { redis := { available := false, jobs := [("j", c1Job)],
               tasks := [("t1", ⟨"j", 1⟩)] } }

/-!
Helper lemmas
-/

theorem getEntry_setEntry_self {α : Type} (l : List (String × α)) (k : String)
    (v : α) : getEntry (setEntry l k v) k = some v := by
  induction l with
  | nil => simp [getEntry, setEntry]
  | cons hd tl ih =>
      obtain ⟨k', v'⟩ := hd
      by_cases h : k = k' <;> simp [getEntry, setEntry, h, ih]

theorem getEntry_setEntry_ne {α : Type} (l : List (String × α))
    (k k' : String) (v : α) (h : k' ≠ k) :
    getEntry (setEntry l k v) k' = getEntry l k' := by
  induction l with
  | nil => simp [getEntry, setEntry, h]
  | cons hd tl ih =>
      obtain ⟨k₀, v₀⟩ := hd
      by_cases hk : k = k₀
      · subst hk; simp [getEntry, setEntry, h]
      · by_cases hk' : k' = k₀ <;> simp [getEntry, setEntry, hk, hk', ih]



theorem jsOrNull_ne_empty (o : Option String) (url : String)
    (h : jsOrNull o = some url) : url ≠ "" := by
  unfold jsOrNull at h
  cases o with
  | none => simp at h
  | some s =>
      by_cases he : s = ""
      · simp [he] at h
      · simp only [he, if_false] at h
        rw [← Option.some_inj.mp h]
        exact he

theorem extractVideoUrl_ne_empty (td : TaskData) (url : String)
    (h : extractVideoUrl td = some url) : url ≠ "" := by
  unfold extractVideoUrl at h
  by_cases hs : td.state = "success"
  · simp only [hs, if_true] at h
    cases hjson : td.resultJson with
    | none => simp [hjson] at h
    | some urls =>
        simp only [hjson] at h
        exact jsOrNull_ne_empty _ _ h
  · simp [hs] at h

theorem getTaskError_of_extract (td : TaskData) (url : String)
    (h : extractVideoUrl td = some url) : getTaskError td = none := by
  unfold extractVideoUrl at h
  by_cases hs : td.state = "success"
  · unfold getTaskError
    rw [hs]
    simp
  · simp [hs] at h

theorem handleJobFailure_stitchStarts (w : World) (now : Nat) (jobId : String)
    (job : Option Job) (msg : String) :
    (handleJobFailure w now jobId job msg).stitchStarts = w.stitchStarts := by
  unfold handleJobFailure updateRecordStatus
  cases job with
  | none => rfl
  | some j => by_cases h : jsTruthy j.recordId = true <;> simp [h]

theorem handleJobFailure_uploadCount (w : World) (now : Nat) (jobId : String)
    (job : Option Job) (msg : String) :
    (handleJobFailure w now jobId job msg).uploadCount = w.uploadCount := by
  unfold handleJobFailure updateRecordStatus
  cases job with
  | none => rfl
  | some j => by_cases h : jsTruthy j.recordId = true <;> simp [h]

theorem getJob_updateJob_slots (svc : RedisService) (now : Nat)
    (jobId : String) (f : Job → Job)
    (hf : ∀ j, slotsOf (f j) = slotsOf j) (jid : String) :
    ((svc.updateJob now jobId f).1.getJob jid).map slotsOf =
      (svc.getJob jid).map slotsOf := by
  unfold RedisService.updateJob RedisService.getJob
  by_cases ha : svc.available = true
  · simp only [ha, if_true]
    cases hget : getEntry svc.jobs jobId with
    | none => simp [ha]
    | some job =>
        simp only [ha, if_true]
        by_cases hj : jid = jobId
        · subst hj
          rw [getEntry_setEntry_self, hget]
          simpa using (hf job)
        · rw [getEntry_setEntry_ne _ _ _ _ hj]
  · simp [ha]

theorem getJob_handleJobFailure_slots (w : World) (now : Nat)
    (jobId : String) (job : Option Job) (msg : String) (jid : String) :
    (((handleJobFailure w now jobId job msg).redis.getJob jid)).map slotsOf =
      (w.redis.getJob jid).map slotsOf := by
  cases job with
  | none =>
      simp only [handleJobFailure]
      refine Eq.trans (getJob_updateJob_slots _ _ _ _ ?_ _) rfl
      intro j; rfl
  | some j =>
      by_cases h : jsTruthy j.recordId = true
      · simp [handleJobFailure, updateRecordStatus, h]
        refine Eq.trans (getJob_updateJob_slots _ _ _ _ ?_ _) rfl
        intro j'; rfl
      · simp [handleJobFailure, h]
        refine Eq.trans (getJob_updateJob_slots _ _ _ _ ?_ _) rfl
        intro j'; rfl

theorem getJob_processStitching_slots (w : World) (now : Nat)
    (jobId : String) (stitch : Except String String)
    (upload : Except String Unit) (jid : String) :
    ((processStitching w now jobId stitch upload).redis.getJob jid).map slotsOf
      = (w.redis.getJob jid).map slotsOf := by
  unfold processStitching
  cases hget : w.redis.getJob jobId with
  | none => exact getJob_handleJobFailure_slots _ _ _ _ _ _
  | some job =>
      cases stitch with
      | error m =>
          by_cases hrec : jsTruthy job.recordId = true
          · simp only [updateRecordStatus, hrec, if_true]
            refine Eq.trans (getJob_handleJobFailure_slots _ _ _ _ _ _) ?_
            refine Eq.trans (getJob_updateJob_slots _ _ _ _ ?_ _) rfl
            intro j'; rfl
          · simp only [updateRecordStatus, hrec, if_false]
            refine Eq.trans (getJob_handleJobFailure_slots _ _ _ _ _ _) ?_
            refine Eq.trans (getJob_updateJob_slots _ _ _ _ ?_ _) rfl
            intro j'; rfl
      | ok p =>
          by_cases hrec : jsTruthy job.recordId = true
          · cases upload with
            | error m =>
                simp only [updateRecordStatus, hrec, if_true]
                refine Eq.trans (getJob_handleJobFailure_slots _ _ _ _ _ _) ?_
                refine Eq.trans (getJob_updateJob_slots _ _ _ _ ?_ _) ?_
                · intro j'; rfl
                refine Eq.trans (getJob_updateJob_slots _ _ _ _ ?_ _) rfl
                intro j'; rfl
            | ok _ =>
                simp only [updateRecordStatus, hrec, if_true]
                refine Eq.trans (getJob_updateJob_slots _ _ _ _ ?_ _) ?_
                · intro j'; rfl
                refine Eq.trans (getJob_updateJob_slots _ _ _ _ ?_ _) ?_
                · intro j'; rfl
                refine Eq.trans (getJob_updateJob_slots _ _ _ _ ?_ _) rfl
                intro j'; rfl
          · simp only [updateRecordStatus, hrec, if_false]
            refine Eq.trans (getJob_updateJob_slots _ _ _ _ ?_ _) ?_
            · intro j'; rfl
            refine Eq.trans (getJob_updateJob_slots _ _ _ _ ?_ _) rfl
            intro j'; rfl

theorem processStitching_stitchStarts (w : World) (now : Nat)
    (jobId : String) (stitch : Except String String)
    (upload : Except String Unit) (job : Job)
    (hget : w.redis.getJob jobId = some job) :
    (processStitching w now jobId stitch upload).stitchStarts =
      w.stitchStarts + 1 := by
  unfold processStitching
  rw [hget]
  cases stitch with
  | error m =>
      by_cases hrec : jsTruthy job.recordId = true <;>
        simp [hrec, handleJobFailure_stitchStarts, updateRecordStatus]
  | ok p =>
      by_cases hrec : jsTruthy job.recordId = true
      · cases upload with
        | error m =>
            simp [hrec, handleJobFailure_stitchStarts, updateRecordStatus]
        | ok _ => simp [hrec, updateRecordStatus]
      · simp [hrec]

theorem getJobFromTask_found (svc : RedisService) (t : String)
    (m : TaskMapping) (ha : svc.available = true)
    (hmap : getEntry svc.tasks t = some m) :
    svc.getJobFromTask t = some m := by
  simp [RedisService.getJobFromTask, ha, hmap]

theorem getJob_found (svc : RedisService) (jobId : String) (job : Job)
    (ha : svc.available = true)
    (hjob : getEntry svc.jobs jobId = some job) :
    svc.getJob jobId = some job := by
  simp [RedisService.getJob, ha, hjob]

theorem prefixed_ne_empty (p s : String) (hp : p ≠ "") : p ++ s ≠ "" := by
  intro hc
  have hd : (p ++ s).data = ("" : String).data := by rw [hc]
  rw [String.data_append] at hd
  exact hp (String.ext ((List.append_eq_nil.mp hd).1))

theorem handleJobFailure_getJob (w : World) (now : Nat) (jobId : String)
    (jobOpt : Option Job) (msg : String) (job : Job)
    (ha : w.redis.available = true)
    (hjob : getEntry w.redis.jobs jobId = some job) :
    (handleJobFailure w now jobId jobOpt msg).redis.getJob jobId =
      some { job with status := "failed",
                      error := some msg,
                      failedAt := some now,
                      updatedAt := some now } := by
  unfold handleJobFailure
  have hred : ∀ f : Job → Job,
      ((w.redis.updateJob now jobId f).1.getJob jobId) =
        some { f job with updatedAt := some now } := by
    intro f
    simp [RedisService.updateJob, RedisService.getJob, ha, hjob,
      getEntry_setEntry_self]
  cases jobOpt with
  | none => exact hred _
  | some j =>
      by_cases h : jsTruthy j.recordId = true
      · simp only [h, if_true, updateRecordStatus]
        exact hred _
      · simp only [h, if_false]
        exact hred _

theorem handleJobFailure_recordUpdates_some (w : World) (now : Nat)
    (jobId : String) (j : Job) (msg : String)
    (hrec : jsTruthy j.recordId = true) (hmsg : msg ≠ "") :
    (handleJobFailure w now jobId (some j) msg).recordUpdates =
      w.recordUpdates ++ [(j.recordId.getD "", "Failed", some msg)] := by
  have htr : jsTruthy (some msg) = true := by simp [jsTruthy, hmsg]
  unfold handleJobFailure updateRecordStatus
  simp only [hrec, if_true, htr]

theorem handleJobFailure_recordUpdates_notruthy (w : World) (now : Nat)
    (jobId : String) (j : Job) (msg : String)
    (hrec : jsTruthy j.recordId = false) :
    (handleJobFailure w now jobId (some j) msg).recordUpdates =
      w.recordUpdates := by
  unfold handleJobFailure
  simp [hrec]

theorem processCallback_fail_branch (w : World) (now : Nat)
    (taskId jobId : String) (n : Nat) (job : Job) (td : TaskData)
    (stitch : Except String String) (upload : Except String Unit)
    (ha : w.redis.available = true)
    (hmap : getEntry w.redis.tasks taskId = some ⟨jobId, n⟩)
    (hjob : getEntry w.redis.jobs jobId = some job)
    (hfail : td.state = "fail") :
    processCallback w now taskId td stitch upload =
      handleJobFailure w now jobId (some job)
        ("Video " ++ toString n ++ " generation failed: " ++
          jsOr td.failMsg "Unknown error") := by
  unfold processCallback
  rw [getJobFromTask_found _ _ _ ha hmap]
  simp only [getJob_found _ _ _ ha hjob,
    show getTaskError td = some ⟨td.failCode, jsOr td.failMsg "Unknown error"⟩
      from by simp [getTaskError, hfail]]

theorem processCallback_noUrl_branch (w : World) (now : Nat)
    (taskId jobId : String) (n : Nat) (job : Job) (td : TaskData)
    (stitch : Except String String) (upload : Except String Unit)
    (ha : w.redis.available = true)
    (hmap : getEntry w.redis.tasks taskId = some ⟨jobId, n⟩)
    (hjob : getEntry w.redis.jobs jobId = some job)
    (hnfail : td.state ≠ "fail") (hnurl : extractVideoUrl td = none) :
    processCallback w now taskId td stitch upload =
      handleJobFailure w now jobId (some job)
        ("Video " ++ toString n ++
          " generation completed but no URL found") := by
  unfold processCallback
  rw [getJobFromTask_found _ _ _ ha hmap]
  simp only [getJob_found _ _ _ ha hjob,
    show getTaskError td = none from by simp [getTaskError, hnfail], hnurl]

theorem processCallback_success_branch (w : World) (now : Nat)
    (taskId jobId : String) (n : Nat) (job : Job) (td : TaskData)
    (url : String) (stitch : Except String String)
    (upload : Except String Unit)
    (ha : w.redis.available = true)
    (hmap : getEntry w.redis.tasks taskId = some ⟨jobId, n⟩)
    (hjob : getEntry w.redis.jobs jobId = some job)
    (hurl : extractVideoUrl td = some url) :
    processCallback w now taskId td stitch upload =
      (if (w.redis.storeVideoUrl now jobId n url).1.areBothVideosReady jobId
       then
        processStitching
          { w with redis := (w.redis.storeVideoUrl now jobId n url).1 }
          now jobId stitch upload
       else
        { w with redis := ((w.redis.storeVideoUrl now jobId n
            url).1.updateJob now jobId
              (RedisService.setProcessingStatus n)).1 }) := by
  unfold processCallback
  rw [getJobFromTask_found _ _ _ ha hmap]
  simp only [getJob_found _ _ _ ha hjob, getTaskError_of_extract _ _ hurl,
    hurl]

/-!
Claim theorems
-/

/-- C5: for a task id with no stored task mapping (unknown, already
consumed, or expired), `processCallback` returns having changed nothing:
no job is created, every job record is untouched, and no pipeline effect
occurs; the same holds for any number of repeated invocations. (The
source cannot throw on this path: `getJobFromTask` catches its own errors
and returns `null`.) -/
theorem c5_unknown_task_callback_noop (w : World) (now : Nat)
    (taskId : String) (td : TaskData) (stitch : Except String String)
    (upload : Except String Unit)
    (h : w.redis.getJobFromTask taskId = none) :
    processCallback w now taskId td stitch upload = w ∧
    ∀ k : Nat,
      (fun w' => processCallback w' now taskId td stitch upload)^[k] w = w := by
  have h1 : processCallback w now taskId td stitch upload = w := by
    unfold processCallback
    rw [h]
  refine ⟨h1, fun k => ?_⟩
  induction k with
  | zero => rfl
  | succ n ih => rw [Function.iterate_succ_apply, h1, ih]

/-- Witness for C5: the concrete world `c5World` stores no mapping for the
task id `tx`. -/
theorem c5_unknown_task_callback_noop_witness :
    processCallback c5World 3 "tx" (tdSuccess "u") (.ok "p") (.ok ()) =
      c5World ∧
    ∀ k : Nat,
      (fun w' => processCallback w' 3 "tx" (tdSuccess "u") (.ok "p")
        (.ok ()))^[k] c5World = c5World :=
  c5_unknown_task_callback_noop c5World 3 "tx" (tdSuccess "u") (.ok "p")
    (.ok ()) (by decide)

/-- C9: with Redis not configured (`this.redis === null`), every store
operation is a logged no-op instead of a crash: `createJob` and
`updateJob` persist nothing and return nothing, `getJob` and
`getJobFromTask` report absence, and consequently `processCallback` leaves
the world untouched for every callback. -/
theorem c9_store_unavailable_degrades (w : World) (now : Nat)
    (h : w.redis.available = false) :
    (∀ jobId jobData, w.redis.createJob jobId jobData = (w.redis, none)) ∧
    (∀ jobId f, w.redis.updateJob now jobId f = (w.redis, none)) ∧
    (∀ jobId, w.redis.getJob jobId = none) ∧
    (∀ taskId, w.redis.getJobFromTask taskId = none) ∧
    (∀ taskId td stitch upload,
        processCallback w now taskId td stitch upload = w) := by
  refine ⟨?_, ?_, ?_, ?_, ?_⟩
  · intro jobId jobData; simp [RedisService.createJob, h]
  · intro jobId f; simp [RedisService.updateJob, h]
  · intro jobId; simp [RedisService.getJob, h]
  · intro taskId; simp [RedisService.getJobFromTask, h]
  · intro taskId td stitch upload
    have hn : w.redis.getJobFromTask taskId = none := by
      simp [RedisService.getJobFromTask, h]
    unfold processCallback
    rw [hn]

/-- Witness for C9 at the concrete unconfigured world `c9World`. -/
theorem c9_store_unavailable_degrades_witness :
    (∀ jobId jobData,
        c9World.redis.createJob jobId jobData = (c9World.redis, none)) ∧
    (∀ jobId f, c9World.redis.updateJob 0 jobId f = (c9World.redis, none)) ∧
    (∀ jobId, c9World.redis.getJob jobId = none) ∧
    (∀ taskId, c9World.redis.getJobFromTask taskId = none) ∧
    (∀ taskId td stitch upload,
        processCallback c9World 0 taskId td stitch upload = c9World) :=
  c9_store_unavailable_degrades c9World 0 (by decide)

/-- C3: a Failure callback (`state === 'fail'`) fails the job immediately
and unconditionally: whatever the other slot holds (the statement imposes
no condition on either slot), the job record is set to `status 'failed'`
with the error built from the failure reason (`failMsg || 'Unknown
error'`) and `failedAt`, the merge pipeline is not entered, and the
failure handler propagates `'Failed'` to the Airtable record exactly when
the job has a truthy `recordId`. -/
theorem c3_failure_callback_fail_fast (w : World) (now : Nat)
    (taskId jobId : String) (n : Nat) (job : Job) (td : TaskData)
    (stitch : Except String String) (upload : Except String Unit)
    (ha : w.redis.available = true)
    (hmap : getEntry w.redis.tasks taskId = some ⟨jobId, n⟩)
    (hjob : getEntry w.redis.jobs jobId = some job)
    (hfail : td.state = "fail") :
    ((processCallback w now taskId td stitch upload).redis.getJob jobId) =
      some { job with status := "failed",
                      error := some ("Video " ++ toString n ++
                        " generation failed: " ++
                        jsOr td.failMsg "Unknown error"),
                      failedAt := some now,
                      updatedAt := some now } ∧
    (processCallback w now taskId td stitch upload).stitchStarts =
      w.stitchStarts ∧
    (jsTruthy job.recordId = true →
      (processCallback w now taskId td stitch upload).recordUpdates =
        w.recordUpdates ++ [(job.recordId.getD "", "Failed",
          some ("Video " ++ toString n ++ " generation failed: " ++
            jsOr td.failMsg "Unknown error"))]) ∧
    (jsTruthy job.recordId = false →
      (processCallback w now taskId td stitch upload).recordUpdates =
        w.recordUpdates) := by
  have hb := processCallback_fail_branch w now taskId jobId n job td stitch
    upload ha hmap hjob hfail
  rw [hb]
  refine ⟨?_, ?_, ?_, ?_⟩
  · exact handleJobFailure_getJob _ _ _ _ _ _ ha hjob
  · exact handleJobFailure_stitchStarts _ _ _ _ _
  · intro hrec
    exact handleJobFailure_recordUpdates_some _ _ _ _ _ hrec
      (prefixed_ne_empty _ _ (prefixed_ne_empty _ _
        (prefixed_ne_empty "Video " _ (by decide))))
  · intro hrec
    exact handleJobFailure_recordUpdates_notruthy _ _ _ _ _ hrec

/-- Witness for C3: in `c3World`, slot 2 already holds a successful result
and task 1 reports failure `quota`; the job fails at once. -/
theorem c3_failure_callback_fail_fast_witness :
    ((processCallback c3World 9 "t1" (tdFail "quota") (.ok "p")
        (.ok ())).redis.getJob "j") =
      some { c3Job with status := "failed",
                        error := some ("Video " ++ toString 1 ++
                          " generation failed: " ++
                          jsOr (tdFail "quota").failMsg "Unknown error"),
                        failedAt := some 9,
                        updatedAt := some 9 } ∧
    (processCallback c3World 9 "t1" (tdFail "quota") (.ok "p")
        (.ok ())).stitchStarts = c3World.stitchStarts ∧
    (jsTruthy c3Job.recordId = true →
      (processCallback c3World 9 "t1" (tdFail "quota") (.ok "p")
          (.ok ())).recordUpdates =
        c3World.recordUpdates ++ [(c3Job.recordId.getD "", "Failed",
          some ("Video " ++ toString 1 ++ " generation failed: " ++
            jsOr (tdFail "quota").failMsg "Unknown error"))]) ∧
    (jsTruthy c3Job.recordId = false →
      (processCallback c3World 9 "t1" (tdFail "quota") (.ok "p")
          (.ok ())).recordUpdates = c3World.recordUpdates) :=
  c3_failure_callback_fail_fast c3World 9 "t1" "j" 1 c3Job (tdFail "quota")
    (.ok "p") (.ok ()) (by decide) (by decide) (by decide) (by decide)

/-- C10: a callback whose payload state is neither `success` nor `fail`
(e.g. an in-progress notification) is treated as a terminal failure: the
error extractor returns nothing, the URL extractor returns `null`, and the
job is failed with the `generation completed but no URL found` reason
rather than left awaiting the real completion callback. -/
theorem c10_nonterminal_state_treated_as_failure (w : World) (now : Nat)
    (taskId jobId : String) (n : Nat) (job : Job) (td : TaskData)
    (stitch : Except String String) (upload : Except String Unit)
    (ha : w.redis.available = true)
    (hmap : getEntry w.redis.tasks taskId = some ⟨jobId, n⟩)
    (hjob : getEntry w.redis.jobs jobId = some job)
    (hns : td.state ≠ "success") (hnf : td.state ≠ "fail") :
    getTaskError td = none ∧
    extractVideoUrl td = none ∧
    ((processCallback w now taskId td stitch upload).redis.getJob jobId) =
      some { job with status := "failed",
                      error := some ("Video " ++ toString n ++
                        " generation completed but no URL found"),
                      failedAt := some now,
                      updatedAt := some now } ∧
    (processCallback w now taskId td stitch upload).stitchStarts =
      w.stitchStarts := by
  have herr : getTaskError td = none := by simp [getTaskError, hnf]
  have hurl : extractVideoUrl td = none := by simp [extractVideoUrl, hns]
  have hb := processCallback_noUrl_branch w now taskId jobId n job td stitch
    upload ha hmap hjob hnf hurl
  rw [hb]
  exact ⟨herr, hurl, handleJobFailure_getJob _ _ _ _ _ _ ha hjob,
    handleJobFailure_stitchStarts _ _ _ _ _⟩

/-- Witness for C10: a `waiting` notification for task 2 of the freshly
dispatched job in `c1World` fails the job. -/
theorem c10_nonterminal_state_treated_as_failure_witness :
    getTaskError { state := "waiting" } = none ∧
    extractVideoUrl { state := "waiting" } = none ∧
    ((processCallback c1World 4 "t2" { state := "waiting" } (.ok "p")
        (.ok ())).redis.getJob "j") =
      some { c1Job with status := "failed",
                        error := some ("Video " ++ toString 2 ++
                          " generation completed but no URL found"),
                        failedAt := some 4,
                        updatedAt := some 4 } ∧
    (processCallback c1World 4 "t2" { state := "waiting" } (.ok "p")
        (.ok ())).stitchStarts = c1World.stitchStarts :=
  c10_nonterminal_state_treated_as_failure c1World 4 "t2" "j" 2 c1Job
    { state := "waiting" } (.ok "p") (.ok ()) (by decide) (by decide)
    (by decide) (by decide) (by decide)

theorem updateJob_found (svc : RedisService) (now : Nat) (jobId : String)
    (f : Job → Job) (job : Job) (ha : svc.available = true)
    (hjob : getEntry svc.jobs jobId = some job) :
    svc.updateJob now jobId f =
      ({ svc with jobs := setEntry svc.jobs jobId { f job with updatedAt := some now } },
       some { f job with updatedAt := some now }) := by
  unfold RedisService.updateJob
  simp [ha, hjob]

theorem storeVideoUrl_found (svc : RedisService) (now : Nat) (jobId : String)
    (n : Nat) (url : String) (job : Job) (ha : svc.available = true)
    (hjob : getEntry svc.jobs jobId = some job) :
    (svc.storeVideoUrl now jobId n url).1 =
      { svc with jobs := setEntry svc.jobs jobId { RedisService.setVideoUrl n url job with updatedAt := some now } } := by
  unfold RedisService.storeVideoUrl
  rw [updateJob_found svc now jobId _ job ha hjob]

theorem setProcessingStatus_status (k : Nat) (j : Job) :
    (RedisService.setProcessingStatus k j).status = "processing" := by
  unfold RedisService.setProcessingStatus
  by_cases h1 : k = 1
  · simp [h1]
  · by_cases h2 : k = 2 <;> simp [h1, h2]

/-- Counterexample to C2 as stated: in `c2World` the job `j` is terminal
(`status = 'failed'`), yet processing a later Success callback for its
still-mapped task 2 does not leave the status terminal — it becomes
`processing`. -/
theorem c2_counterexample :
    (c2World.redis.getJob "j").map Job.status = some "failed" ∧
    ((processCallback c2World 9 "t2" (tdSuccess "https://v2") (.ok "p")
        (.ok ())).redis.getJob "j").map Job.status = some "processing" ∧
    ((processCallback c2World 9 "t2" (tdSuccess "https://v2") (.ok "p")
        (.ok ())).redis.getJob "j").map Job.status ≠ some "failed" ∧
    ((processCallback c2World 9 "t2" (tdSuccess "https://v2") (.ok "p")
        (.ok ())).redis.getJob "j").map Job.status ≠ some "completed" := by
  decide

/-- C2 (amended): `processCallback` performs no terminal-status check, so a
later Success callback against a terminal (`failed` or `completed`) job is
not ignored: when the sibling slot is not truthy it stores the URL and
overwrites the job's status with `processing`, reopening the terminal job
(no merge is started by this particular callback; the both-slots-filled
case re-enters the merge pipeline, see the C4 theorems). -/
theorem c2_amended_terminal_job_reopened (w : World) (now : Nat)
    (taskId jobId : String) (n : Nat) (job : Job) (td : TaskData)
    (url : String) (stitch : Except String String)
    (upload : Except String Unit)
    (ha : w.redis.available = true)
    (hmap : getEntry w.redis.tasks taskId = some ⟨jobId, n⟩)
    (hjob : getEntry w.redis.jobs jobId = some job)
    (_hterm : job.status = "failed" ∨ job.status = "completed")
    (hurl : extractVideoUrl td = some url)
    (hsib : (n = 1 ∧ jsTruthy job.video2Url = false) ∨
            (n = 2 ∧ jsTruthy job.video1Url = false)) :
    ((processCallback w now taskId td stitch upload).redis.getJob
        jobId).map Job.status = some "processing" ∧
    (processCallback w now taskId td stitch upload).stitchStarts =
      w.stitchStarts := by
  have hb := processCallback_success_branch w now taskId jobId n job td url
    stitch upload ha hmap hjob hurl
  have hstore := storeVideoUrl_found w.redis now jobId n url job ha hjob
  have hget1 : (w.redis.storeVideoUrl now jobId n url).1.getJob jobId =
      some { RedisService.setVideoUrl n url job with updatedAt := some now } := by
    rw [hstore]
    simp [RedisService.getJob, ha, getEntry_setEntry_self]
  have hready : (w.redis.storeVideoUrl now jobId n url).1.areBothVideosReady
      jobId = false := by
    unfold RedisService.areBothVideosReady
    rw [hget1]
    rcases hsib with ⟨hn, hs⟩ | ⟨hn, hs⟩
    · subst hn
      simp only [RedisService.setVideoUrl]
      simp [hs]
    · subst hn
      simp only [RedisService.setVideoUrl]
      simp [hs]
  rw [hb, hready]
  simp only [Bool.false_eq_true, if_false]
  constructor
  · have ha1 : ((w.redis.storeVideoUrl now jobId n url).1).available = true := by
      rw [hstore]
      exact ha
    have hj1 : getEntry ((w.redis.storeVideoUrl now jobId n url).1).jobs
        jobId = some { RedisService.setVideoUrl n url job with updatedAt := some now } := by
      rw [hstore]
      exact getEntry_setEntry_self _ _ _
    rw [updateJob_found _ now jobId (RedisService.setProcessingStatus n) _
      ha1 hj1]
    simp [RedisService.getJob, ha1, getEntry_setEntry_self,
      setProcessingStatus_status]
  · trivial

/-- Witness for the amended C2 at the concrete terminal world `c2World`. -/
theorem c2_amended_terminal_job_reopened_witness :
    ((processCallback c2World 9 "t2" (tdSuccess "https://v2") (.ok "p")
        (.ok ())).redis.getJob "j").map Job.status = some "processing" ∧
    (processCallback c2World 9 "t2" (tdSuccess "https://v2") (.ok "p")
        (.ok ())).stitchStarts = c2World.stitchStarts :=
  c2_amended_terminal_job_reopened c2World 9 "t2" "j" 2 c2Job
    (tdSuccess "https://v2") "https://v2" (.ok "p") (.ok ()) (by decide)
    (by decide) (by decide) (Or.inl (by decide)) (by decide)
    (Or.inr (by decide))

/-- Counterexample to C4 as stated: in `c4World` the job has already
completed (both slots filled, one merge recorded, mappings still live).
Delivering the same `(t1, Success)` callback once starts one more merge;
delivering it twice starts two — the observable effect of a duplicate
differs from a single delivery, and each duplicate re-enters the
merge/publish pipeline. -/
theorem c4_counterexample :
    (processCallback c4World 9 "t1" (tdSuccess "https://v1") (.ok "p")
        (.ok ())).stitchStarts = c4World.stitchStarts + 1 ∧
    (processCallback (processCallback c4World 9 "t1" (tdSuccess "https://v1")
        (.ok "p") (.ok ())) 9 "t1" (tdSuccess "https://v1") (.ok "p")
        (.ok ())).stitchStarts = c4World.stitchStarts + 2 ∧
    processCallback (processCallback c4World 9 "t1" (tdSuccess "https://v1")
        (.ok "p") (.ok ())) 9 "t1" (tdSuccess "https://v1") (.ok "p")
        (.ok ()) ≠
      processCallback c4World 9 "t1" (tdSuccess "https://v1") (.ok "p")
        (.ok ()) := by
  decide

/-- C4 (amended): callback delivery is not idempotent. The task mapping is
never consumed and no terminal-status check is made, so every delivery of
a Success callback whose job ends up with both slots truthy enters the
merge pipeline (`processStitching`) once more: duplicates after
completion cause a double merge (and, with an Airtable record, a double
publish), instead of having the same observable effect as one delivery. -/
theorem c4_amended_duplicate_restarts_merge (w : World) (now : Nat)
    (taskId jobId : String) (n : Nat) (job : Job) (td : TaskData)
    (url : String) (stitch : Except String String)
    (upload : Except String Unit)
    (ha : w.redis.available = true)
    (hmap : getEntry w.redis.tasks taskId = some ⟨jobId, n⟩)
    (hjob : getEntry w.redis.jobs jobId = some job)
    (hs1 : n = 1 → jsTruthy job.video2Url = true)
    (hs2 : n = 2 → jsTruthy job.video1Url = true)
    (hn : n = 1 ∨ n = 2)
    (hurl : extractVideoUrl td = some url) :
    (processCallback w now taskId td stitch upload).stitchStarts =
      w.stitchStarts + 1 := by
  have hb := processCallback_success_branch w now taskId jobId n job td url
    stitch upload ha hmap hjob hurl
  have hstore := storeVideoUrl_found w.redis now jobId n url job ha hjob
  have hget1 : (w.redis.storeVideoUrl now jobId n url).1.getJob jobId =
      some { RedisService.setVideoUrl n url job with updatedAt := some now } := by
    rw [hstore]
    simp [RedisService.getJob, ha, getEntry_setEntry_self]
  have hu : jsTruthy (some url) = true := by
    simp [jsTruthy, extractVideoUrl_ne_empty td url hurl]
  have hready : (w.redis.storeVideoUrl now jobId n url).1.areBothVideosReady
      jobId = true := by
    unfold RedisService.areBothVideosReady
    rw [hget1]
    rcases hn with hn | hn
    · subst hn
      simp only [RedisService.setVideoUrl]
      simp [hu, hs1 rfl]
    · subst hn
      simp only [RedisService.setVideoUrl]
      simp [hu, hs2 rfl]
  rw [hb, hready]
  simp only [if_true]
  exact processStitching_stitchStarts _ _ _ _ _ _ hget1

/-- Witness for the amended C4: a duplicate Success callback for task 1 of
the completed job in `c4World` enters the merge pipeline again. -/
theorem c4_amended_duplicate_restarts_merge_witness :
    (processCallback c4World 9 "t1" (tdSuccess "https://v1") (.ok "p")
        (.ok ())).stitchStarts = c4World.stitchStarts + 1 :=
  c4_amended_duplicate_restarts_merge c4World 9 "t1" "j" 1 c4Job
    (tdSuccess "https://v1") "https://v1" (.ok "p") (.ok ()) (by decide)
    (by decide) (by decide) (fun _ => by decide) (fun h => by simp at h)
    (Or.inl rfl) (by decide)

theorem updateJob_available (svc : RedisService) (now : Nat) (jid : String)
    (f : Job → Job) : (svc.updateJob now jid f).1.available = svc.available := by
  unfold RedisService.updateJob
  by_cases ha : svc.available = true
  · rw [if_pos ha]
    cases getEntry svc.jobs jid <;> rfl
  · rw [if_neg ha]

theorem updateJob_tasks (svc : RedisService) (now : Nat) (jid : String)
    (f : Job → Job) : (svc.updateJob now jid f).1.tasks = svc.tasks := by
  unfold RedisService.updateJob
  by_cases ha : svc.available = true
  · rw [if_pos ha]
    cases getEntry svc.jobs jid <;> rfl
  · rw [if_neg ha]

theorem storeVideoUrl_available (svc : RedisService) (now : Nat)
    (jid : String) (n : Nat) (url : String) :
    (svc.storeVideoUrl now jid n url).1.available = svc.available :=
  updateJob_available svc now jid _

theorem storeVideoUrl_tasks (svc : RedisService) (now : Nat)
    (jid : String) (n : Nat) (url : String) :
    (svc.storeVideoUrl now jid n url).1.tasks = svc.tasks :=
  updateJob_tasks svc now jid _

theorem extractVideoUrl_tdSuccess (u : String) (hu : u ≠ "") :
    extractVideoUrl (tdSuccess u) = some u := by
  simp [extractVideoUrl, tdSuccess, jsOrNull, hu]

theorem processCallback_success_waiting_world (w : World) (now : Nat)
    (taskId jobId : String) (n : Nat) (job : Job) (td : TaskData)
    (url : String) (stitch : Except String String)
    (upload : Except String Unit)
    (ha : w.redis.available = true)
    (hmap : getEntry w.redis.tasks taskId = some ⟨jobId, n⟩)
    (hjob : getEntry w.redis.jobs jobId = some job)
    (hurl : extractVideoUrl td = some url)
    (hnot : (w.redis.storeVideoUrl now jobId n url).1.areBothVideosReady
      jobId = false) :
    processCallback w now taskId td stitch upload =
      { w with redis := ((w.redis.storeVideoUrl now jobId n
          url).1.updateJob now jobId
            (RedisService.setProcessingStatus n)).1 } := by
  rw [processCallback_success_branch w now taskId jobId n job td url stitch
    upload ha hmap hjob hurl, hnot]
  simp only [Bool.false_eq_true, if_false]

theorem processCallback_success_ready_world (w : World) (now : Nat)
    (taskId jobId : String) (n : Nat) (job : Job) (td : TaskData)
    (url : String) (stitch : Except String String)
    (upload : Except String Unit)
    (ha : w.redis.available = true)
    (hmap : getEntry w.redis.tasks taskId = some ⟨jobId, n⟩)
    (hjob : getEntry w.redis.jobs jobId = some job)
    (hurl : extractVideoUrl td = some url)
    (hready : (w.redis.storeVideoUrl now jobId n url).1.areBothVideosReady
      jobId = true) :
    processCallback w now taskId td stitch upload =
      processStitching
        { w with redis := (w.redis.storeVideoUrl now jobId n url).1 }
        now jobId stitch upload := by
  rw [processCallback_success_branch w now taskId jobId n job td url stitch
    upload ha hmap hjob hurl, hready]
  simp only [if_true]

theorem processCallback_stitch_requires_ready (w : World) (now : Nat)
    (tid : String) (td : TaskData) (stitch : Except String String)
    (upload : Except String Unit)
    (h : (processCallback w now tid td stitch upload).stitchStarts ≠
      w.stitchStarts) :
    ∃ jid job',
      (processCallback w now tid td stitch upload).redis.getJob jid =
        some job' ∧
      jsTruthy job'.video1Url = true ∧ jsTruthy job'.video2Url = true := by
  unfold processCallback at h ⊢
  cases hm : w.redis.getJobFromTask tid with
  | none =>
      rw [hm] at h
      exact absurd rfl h
  | some m =>
      rw [hm] at h
      simp only [] at h
      simp only []
      cases hj : w.redis.getJob m.jobId with
      | none =>
          rw [hj] at h
          exact absurd rfl h
      | some job =>
          rw [hj] at h
          simp only [] at h
          simp only []
          cases he : getTaskError td with
          | some err =>
              rw [he] at h
              exact absurd (handleJobFailure_stitchStarts _ _ _ _ _) h
          | none =>
              rw [he] at h
              simp only [] at h
              simp only []
              cases hx : extractVideoUrl td with
              | none =>
                  rw [hx] at h
                  exact absurd (handleJobFailure_stitchStarts _ _ _ _ _) h
              | some url =>
                  rw [hx] at h
                  simp only [] at h
                  simp only []
                  by_cases hr : (w.redis.storeVideoUrl now m.jobId
                      m.videoNumber url).1.areBothVideosReady m.jobId = true
                  · rw [if_pos hr]
                    refine ⟨m.jobId, ?_⟩
                    have hready := hr
                    unfold RedisService.areBothVideosReady at hready
                    cases hj2 : ((w.redis.storeVideoUrl now m.jobId
                        m.videoNumber url).1.getJob m.jobId) with
                    | none =>
                        rw [hj2] at hready
                        simp at hready
                    | some jobR =>
                        rw [hj2] at hready
                        simp only [] at hready
                        have hrr : jsTruthy jobR.video1Url = true ∧
                            jsTruthy jobR.video2Url = true := by
                          simpa using hready
                        have hslots := getJob_processStitching_slots
                          { w with redis := (w.redis.storeVideoUrl now
                              m.jobId m.videoNumber url).1 }
                          now m.jobId stitch upload m.jobId
                        simp only [] at hslots
                        rw [hj2] at hslots
                        cases hfin : (processStitching
                            { w with redis := (w.redis.storeVideoUrl now
                                m.jobId m.videoNumber url).1 }
                            now m.jobId stitch upload).redis.getJob m.jobId with
                        | none =>
                            rw [hfin] at hslots
                            simp at hslots
                        | some job' =>
                            rw [hfin] at hslots
                            have hsl : slotsOf job' = slotsOf jobR := by
                              simpa using hslots
                            refine ⟨job', rfl, ?_, ?_⟩
                            · rw [show job'.video1Url = jobR.video1Url from
                                congrArg Prod.fst hsl]
                              exact hrr.1
                            · rw [show job'.video2Url = jobR.video2Url from
                                congrArg Prod.snd hsl]
                              exact hrr.2
                  · rw [if_neg hr] at h
                    exact absurd rfl h

/-- C1: from a freshly dispatched job (both slots empty, both task
mappings live), a single Success callback does not enter the merge
pipeline; the second Success callback enters it exactly once, in either
arrival order; both orders leave the same per-slot stored results
(slot 1 = task 1's URL, slot 2 = task 2's URL); and in general the merge
pipeline is entered only when the stored job ends up with both slots
truthy (`areBothVideosReady`). -/
theorem c1_ready_iff_both_slots_commutative (w : World)
    (taskId1 taskId2 jobId u1 u2 : String) (job : Job) (n1 n2 : Nat)
    (stitch : Except String String) (upload : Except String Unit)
    (ha : w.redis.available = true)
    (hmap1 : getEntry w.redis.tasks taskId1 = some ⟨jobId, 1⟩)
    (hmap2 : getEntry w.redis.tasks taskId2 = some ⟨jobId, 2⟩)
    (hjob : getEntry w.redis.jobs jobId = some job)
    (hv1 : job.video1Url = none) (hv2 : job.video2Url = none)
    (hu1 : u1 ≠ "") (hu2 : u2 ≠ "") :
    (processCallback w n1 taskId1 (tdSuccess u1) stitch upload).stitchStarts
      = w.stitchStarts ∧
    (processCallback w n1 taskId2 (tdSuccess u2) stitch upload).stitchStarts
      = w.stitchStarts ∧
    (processCallback (processCallback w n1 taskId1 (tdSuccess u1) stitch
      upload) n2 taskId2 (tdSuccess u2) stitch upload).stitchStarts =
      w.stitchStarts + 1 ∧
    (processCallback (processCallback w n1 taskId2 (tdSuccess u2) stitch
      upload) n2 taskId1 (tdSuccess u1) stitch upload).stitchStarts =
      w.stitchStarts + 1 ∧
    ((processCallback (processCallback w n1 taskId1 (tdSuccess u1) stitch
      upload) n2 taskId2 (tdSuccess u2) stitch upload).redis.getJob
        jobId).map slotsOf = some (some u1, some u2) ∧
    ((processCallback (processCallback w n1 taskId2 (tdSuccess u2) stitch
      upload) n2 taskId1 (tdSuccess u1) stitch upload).redis.getJob
        jobId).map slotsOf = some (some u1, some u2) ∧
    (∀ (wx : World) (now : Nat) (tid : String) (td : TaskData),
      (processCallback wx now tid td stitch upload).stitchStarts ≠
        wx.stitchStarts →
      ∃ jid jobx,
        (processCallback wx now tid td stitch upload).redis.getJob jid =
          some jobx ∧
        jsTruthy jobx.video1Url = true ∧ jsTruthy jobx.video2Url = true) := by
  have hx1 := extractVideoUrl_tdSuccess u1 hu1
  have hx2 := extractVideoUrl_tdSuccess u2 hu2
  have hu1t : jsTruthy (some u1) = true := by simp [jsTruthy, hu1]
  have hu2t : jsTruthy (some u2) = true := by simp [jsTruthy, hu2]
  -- order A: slot 1 arrives first
  have hstoreA := storeVideoUrl_found w.redis n1 jobId 1 u1 job ha hjob
  have hgetA : (w.redis.storeVideoUrl n1 jobId 1 u1).1.getJob jobId =
      some { RedisService.setVideoUrl 1 u1 job with updatedAt := some n1 } := by
    rw [hstoreA]
    simp [RedisService.getJob, ha, getEntry_setEntry_self]
  have hnrA : (w.redis.storeVideoUrl n1 jobId 1
      u1).1.areBothVideosReady jobId = false := by
    unfold RedisService.areBothVideosReady
    rw [hgetA]
    simp [RedisService.setVideoUrl, hv2, jsTruthy]
  have hWA := processCallback_success_waiting_world w n1 taskId1 jobId 1 job
    (tdSuccess u1) u1 stitch upload ha hmap1 hjob hx1 hnrA
  -- order B: slot 2 arrives first
  have hstoreB := storeVideoUrl_found w.redis n1 jobId 2 u2 job ha hjob
  have hgetB : (w.redis.storeVideoUrl n1 jobId 2 u2).1.getJob jobId =
      some { RedisService.setVideoUrl 2 u2 job with updatedAt := some n1 } := by
    rw [hstoreB]
    simp [RedisService.getJob, ha, getEntry_setEntry_self]
  have hnrB : (w.redis.storeVideoUrl n1 jobId 2
      u2).1.areBothVideosReady jobId = false := by
    unfold RedisService.areBothVideosReady
    rw [hgetB]
    simp [RedisService.setVideoUrl, hv1, jsTruthy]
  have hWB := processCallback_success_waiting_world w n1 taskId2 jobId 2 job
    (tdSuccess u2) u2 stitch upload ha hmap2 hjob hx2 hnrB
  -- the store after order A's first callback
  have haA : ((w.redis.storeVideoUrl n1 jobId 1 u1).1.updateJob n1 jobId
      (RedisService.setProcessingStatus 1)).1.available = true := by
    rw [updateJob_available, storeVideoUrl_available]
    exact ha
  have htA : ((w.redis.storeVideoUrl n1 jobId 1 u1).1.updateJob n1 jobId
      (RedisService.setProcessingStatus 1)).1.tasks = w.redis.tasks := by
    rw [updateJob_tasks, storeVideoUrl_tasks]
  have hjA0 : getEntry (w.redis.storeVideoUrl n1 jobId 1 u1).1.jobs jobId =
      some { RedisService.setVideoUrl 1 u1 job with updatedAt := some n1 } := by
    rw [hstoreA]
    exact getEntry_setEntry_self _ _ _
  have havA0 : (w.redis.storeVideoUrl n1 jobId 1 u1).1.available = true := by
    rw [storeVideoUrl_available]
    exact ha
  have hupdA := updateJob_found (w.redis.storeVideoUrl n1 jobId 1 u1).1 n1
    jobId (RedisService.setProcessingStatus 1) _ havA0 hjA0
  have hjA : getEntry ((w.redis.storeVideoUrl n1 jobId 1 u1).1.updateJob n1
      jobId (RedisService.setProcessingStatus 1)).1.jobs jobId =
      some { RedisService.setProcessingStatus 1
               { RedisService.setVideoUrl 1 u1 job with updatedAt := some n1 }
             with updatedAt := some n1 } := by
    rw [show ((w.redis.storeVideoUrl n1 jobId 1 u1).1.updateJob n1 jobId
      (RedisService.setProcessingStatus 1)).1 = _ from congrArg Prod.fst hupdA]
    exact getEntry_setEntry_self _ _ _
  -- the store after order B's first callback
  have haB : ((w.redis.storeVideoUrl n1 jobId 2 u2).1.updateJob n1 jobId
      (RedisService.setProcessingStatus 2)).1.available = true := by
    rw [updateJob_available, storeVideoUrl_available]
    exact ha
  have htB : ((w.redis.storeVideoUrl n1 jobId 2 u2).1.updateJob n1 jobId
      (RedisService.setProcessingStatus 2)).1.tasks = w.redis.tasks := by
    rw [updateJob_tasks, storeVideoUrl_tasks]
  have hjB0 : getEntry (w.redis.storeVideoUrl n1 jobId 2 u2).1.jobs jobId =
      some { RedisService.setVideoUrl 2 u2 job with updatedAt := some n1 } := by
    rw [hstoreB]
    exact getEntry_setEntry_self _ _ _
  have havB0 : (w.redis.storeVideoUrl n1 jobId 2 u2).1.available = true := by
    rw [storeVideoUrl_available]
    exact ha
  have hupdB := updateJob_found (w.redis.storeVideoUrl n1 jobId 2 u2).1 n1
    jobId (RedisService.setProcessingStatus 2) _ havB0 hjB0
  have hjB : getEntry ((w.redis.storeVideoUrl n1 jobId 2 u2).1.updateJob n1
      jobId (RedisService.setProcessingStatus 2)).1.jobs jobId =
      some { RedisService.setProcessingStatus 2
               { RedisService.setVideoUrl 2 u2 job with updatedAt := some n1 }
             with updatedAt := some n1 } := by
    rw [show ((w.redis.storeVideoUrl n1 jobId 2 u2).1.updateJob n1 jobId
      (RedisService.setProcessingStatus 2)).1 = _ from congrArg Prod.fst hupdB]
    exact getEntry_setEntry_self _ _ _
  -- second callback of order A (slot 2 arrives at the waiting world)
  have hmapA2 : getEntry ((w.redis.storeVideoUrl n1 jobId 1 u1).1.updateJob
      n1 jobId (RedisService.setProcessingStatus 1)).1.tasks taskId2 =
      some ⟨jobId, 2⟩ := by
    rw [htA]
    exact hmap2
  have hstoreA2 := storeVideoUrl_found ((w.redis.storeVideoUrl n1 jobId 1
    u1).1.updateJob n1 jobId (RedisService.setProcessingStatus 1)).1 n2 jobId
    2 u2 _ haA hjA
  have hgetA2 : (((w.redis.storeVideoUrl n1 jobId 1 u1).1.updateJob n1 jobId
      (RedisService.setProcessingStatus 1)).1.storeVideoUrl n2 jobId 2
      u2).1.getJob jobId =
      some { RedisService.setVideoUrl 2 u2
               { RedisService.setProcessingStatus 1
                   { RedisService.setVideoUrl 1 u1 job with
                     updatedAt := some n1 }
                 with updatedAt := some n1 }
             with updatedAt := some n2 } := by
    rw [hstoreA2]
    simp [RedisService.getJob, haA, getEntry_setEntry_self]
  have hreadyA2 : (((w.redis.storeVideoUrl n1 jobId 1 u1).1.updateJob n1
      jobId (RedisService.setProcessingStatus 1)).1.storeVideoUrl n2 jobId 2
      u2).1.areBothVideosReady jobId = true := by
    unfold RedisService.areBothVideosReady
    rw [hgetA2]
    simp [RedisService.setVideoUrl, RedisService.setProcessingStatus, hu1t,
      hu2t]
  have hw2A := processCallback_success_ready_world
    { w with redis := ((w.redis.storeVideoUrl n1 jobId 1 u1).1.updateJob n1
        jobId (RedisService.setProcessingStatus 1)).1 }
    n2 taskId2 jobId 2 _ (tdSuccess u2) u2 stitch upload haA hmapA2 hjA hx2
    hreadyA2
  -- second callback of order B (slot 1 arrives at the waiting world)
  have hmapB1 : getEntry ((w.redis.storeVideoUrl n1 jobId 2 u2).1.updateJob
      n1 jobId (RedisService.setProcessingStatus 2)).1.tasks taskId1 =
      some ⟨jobId, 1⟩ := by
    rw [htB]
    exact hmap1
  have hstoreB1 := storeVideoUrl_found ((w.redis.storeVideoUrl n1 jobId 2
    u2).1.updateJob n1 jobId (RedisService.setProcessingStatus 2)).1 n2 jobId
    1 u1 _ haB hjB
  have hgetB1 : (((w.redis.storeVideoUrl n1 jobId 2 u2).1.updateJob n1 jobId
      (RedisService.setProcessingStatus 2)).1.storeVideoUrl n2 jobId 1
      u1).1.getJob jobId =
      some { RedisService.setVideoUrl 1 u1
               { RedisService.setProcessingStatus 2
                   { RedisService.setVideoUrl 2 u2 job with
                     updatedAt := some n1 }
                 with updatedAt := some n1 }
             with updatedAt := some n2 } := by
    rw [hstoreB1]
    simp [RedisService.getJob, haB, getEntry_setEntry_self]
  have hreadyB1 : (((w.redis.storeVideoUrl n1 jobId 2 u2).1.updateJob n1
      jobId (RedisService.setProcessingStatus 2)).1.storeVideoUrl n2 jobId 1
      u1).1.areBothVideosReady jobId = true := by
    unfold RedisService.areBothVideosReady
    rw [hgetB1]
    simp [RedisService.setVideoUrl, RedisService.setProcessingStatus, hu1t,
      hu2t]
  have hw2B := processCallback_success_ready_world
    { w with redis := ((w.redis.storeVideoUrl n1 jobId 2 u2).1.updateJob n1
        jobId (RedisService.setProcessingStatus 2)).1 }
    n2 taskId1 jobId 1 _ (tdSuccess u1) u1 stitch upload haB hmapB1 hjB hx1
    hreadyB1
  refine ⟨by rw [hWA], by rw [hWB], ?_, ?_, ?_, ?_,
    fun wx now tid td hne =>
      processCallback_stitch_requires_ready wx now tid td stitch upload hne⟩
  · rw [hWA, hw2A]
    exact processStitching_stitchStarts _ n2 jobId stitch upload _ hgetA2
  · rw [hWB, hw2B]
    exact processStitching_stitchStarts _ n2 jobId stitch upload _ hgetB1
  · rw [hWA, hw2A, getJob_processStitching_slots _ n2 jobId stitch upload
      jobId]
    simp only []
    rw [hgetA2]
    simp [slotsOf, RedisService.setVideoUrl, RedisService.setProcessingStatus]
  · rw [hWB, hw2B, getJob_processStitching_slots _ n2 jobId stitch upload
      jobId]
    simp only []
    rw [hgetB1]
    simp [slotsOf, RedisService.setVideoUrl, RedisService.setProcessingStatus]

/-- Witness for C1 at the concrete dispatched world `c1World`, with
arrival times 5 and 6 and two concrete URLs. -/
theorem c1_ready_iff_both_slots_commutative_witness :
    (processCallback c1World 5 "t1" (tdSuccess "https://v1") (.ok "p")
      (.ok ())).stitchStarts = c1World.stitchStarts ∧
    (processCallback c1World 5 "t2" (tdSuccess "https://v2") (.ok "p")
      (.ok ())).stitchStarts = c1World.stitchStarts ∧
    (processCallback (processCallback c1World 5 "t1" (tdSuccess "https://v1")
      (.ok "p") (.ok ())) 6 "t2" (tdSuccess "https://v2") (.ok "p")
      (.ok ())).stitchStarts = c1World.stitchStarts + 1 ∧
    (processCallback (processCallback c1World 5 "t2" (tdSuccess "https://v2")
      (.ok "p") (.ok ())) 6 "t1" (tdSuccess "https://v1") (.ok "p")
      (.ok ())).stitchStarts = c1World.stitchStarts + 1 ∧
    ((processCallback (processCallback c1World 5 "t1"
      (tdSuccess "https://v1") (.ok "p") (.ok ())) 6 "t2"
      (tdSuccess "https://v2") (.ok "p") (.ok ())).redis.getJob "j").map
        slotsOf = some (some "https://v1", some "https://v2") ∧
    ((processCallback (processCallback c1World 5 "t2"
      (tdSuccess "https://v2") (.ok "p") (.ok ())) 6 "t1"
      (tdSuccess "https://v1") (.ok "p") (.ok ())).redis.getJob "j").map
        slotsOf = some (some "https://v1", some "https://v2") ∧
    (∀ (wx : World) (now : Nat) (tid : String) (td : TaskData),
      (processCallback wx now tid td (.ok "p") (.ok ())).stitchStarts ≠
        wx.stitchStarts →
      ∃ jid jobx,
        (processCallback wx now tid td (.ok "p") (.ok ())).redis.getJob jid =
          some jobx ∧
        jsTruthy jobx.video1Url = true ∧ jsTruthy jobx.video2Url = true) :=
  c1_ready_iff_both_slots_commutative c1World "t1" "t2" "j" "https://v1"
    "https://v2" c1Job 5 6 (.ok "p") (.ok ()) (by decide) (by decide)
    (by decide) (by decide) (by decide) (by decide) (by decide) (by decide)

theorem createJob_available_eq (svc : RedisService) (jobId : String)
    (jobData : Job) (ha : svc.available = true) :
    svc.createJob jobId jobData =
      ({ svc with jobs := setEntry svc.jobs jobId jobData }, some jobData) := by
  unfold RedisService.createJob
  simp [ha]

/-- Counterexample to C8's side identification: dispatching with the first
submission failing and dispatching with the second submission failing
(same underlying API error) produce literally identical worlds and
responses, and the recorded job error is the bare wrapped message — so
the recorded reason cannot identify which side failed. -/
theorem c8_counterexample :
    generateAndStitch c8World 4 "p1" "p2" (some "rec") "landscape" "j"
        (.error "quota") (.ok "t2") =
      generateAndStitch c8World 4 "p1" "p2" (some "rec") "landscape" "j"
        (.ok "t1") (.error "quota") ∧
    ((generateAndStitch c8World 4 "p1" "p2" (some "rec") "landscape" "j"
        (.error "quota") (.ok "t2")).1.redis.getJob "j").map Job.error =
      some (some "Failed to create Sora task: quota") ∧
    (generateAndStitch c8World 4 "p1" "p2" (some "rec") "landscape" "j"
        (.error "quota") (.ok "t2")).2 =
      HttpResponse.serverError "Failed to create Sora task: quota" := by
  decide

/-- C8 (amended): when either render submission fails (including after the
other succeeded), the job is immediately marked failed — with the wrapped
submission error message, which does not identify which side failed — and
the synchronous caller receives a 500 error response instead of the 202
job-id acknowledgment. Each submission is attempted exactly once on this
path (no retry appears in the model, which calls each API outcome once). -/
theorem c8_amended_dispatch_failure_fails_job (w : World) (now : Nat)
    (prompt1 prompt2 : String) (recordId : Option String)
    (aspectRatio jobId : String) (api1 api2 : Except String String)
    (m : String)
    (hp1 : prompt1 ≠ "") (hp2 : prompt2 ≠ "")
    (ha : w.redis.available = true)
    (hfail : api1 = .error m ∨ (∃ t1, api1 = .ok t1 ∧ api2 = .error m)) :
    (generateAndStitch w now prompt1 prompt2 recordId aspectRatio jobId
        api1 api2).2 =
      HttpResponse.serverError ("Failed to create Sora task: " ++ m) ∧
    ((generateAndStitch w now prompt1 prompt2 recordId aspectRatio jobId
        api1 api2).1.redis.getJob jobId).map Job.status = some "failed" ∧
    ((generateAndStitch w now prompt1 prompt2 recordId aspectRatio jobId
        api1 api2).1.redis.getJob jobId).map Job.error =
      some (some ("Failed to create Sora task: " ++ m)) ∧
    ((generateAndStitch w now prompt1 prompt2 recordId aspectRatio jobId
        api1 api2).1.redis.getJob jobId).map Job.failedAt =
      some (some now) := by
  have hvalid : ¬(prompt1 = "" ∨ prompt2 = "") := not_or.mpr ⟨hp1, hp2⟩
  have havC : (w.redis.createJob jobId
      (initialJob now prompt1 prompt2 recordId aspectRatio
        jobId)).1.available = true := by
    rw [createJob_available_eq _ _ _ ha]
    exact ha
  have hgetC : getEntry (w.redis.createJob jobId
      (initialJob now prompt1 prompt2 recordId aspectRatio
        jobId)).1.jobs jobId =
      some (initialJob now prompt1 prompt2 recordId aspectRatio jobId) := by
    rw [createJob_available_eq _ _ _ ha]
    exact getEntry_setEntry_self _ _ _
  have hjf := handleJobFailure_getJob
    { w with redis := (w.redis.createJob jobId
        (initialJob now prompt1 prompt2 recordId aspectRatio jobId)).1 }
    now jobId (some (recordStub recordId))
    ("Failed to create Sora task: " ++ m)
    (initialJob now prompt1 prompt2 recordId aspectRatio jobId) havC hgetC
  rcases hfail with h1 | ⟨t1, h1, h2⟩
  · subst h1
    unfold generateAndStitch
    rw [if_neg hvalid]
    simp only [createTask]
    refine ⟨trivial, ?_, ?_, ?_⟩ <;>
      · rw [hjf]
        rfl
  · subst h1
    subst h2
    unfold generateAndStitch
    rw [if_neg hvalid]
    simp only [createTask]
    refine ⟨trivial, ?_, ?_, ?_⟩ <;>
      · rw [hjf]
        rfl

/-- Witness for the amended C8 at a concrete dispatch whose second
submission fails after the first succeeded. -/
theorem c8_amended_dispatch_failure_fails_job_witness :
    (generateAndStitch c8World 4 "p1" "p2" (some "rec") "landscape" "j"
        (.ok "t1") (.error "quota")).2 =
      HttpResponse.serverError ("Failed to create Sora task: " ++ "quota") ∧
    ((generateAndStitch c8World 4 "p1" "p2" (some "rec") "landscape" "j"
        (.ok "t1") (.error "quota")).1.redis.getJob "j").map Job.status =
      some "failed" ∧
    ((generateAndStitch c8World 4 "p1" "p2" (some "rec") "landscape" "j"
        (.ok "t1") (.error "quota")).1.redis.getJob "j").map Job.error =
      some (some ("Failed to create Sora task: " ++ "quota")) ∧
    ((generateAndStitch c8World 4 "p1" "p2" (some "rec") "landscape" "j"
        (.ok "t1") (.error "quota")).1.redis.getJob "j").map Job.failedAt =
      some (some 4) :=
  c8_amended_dispatch_failure_fails_job c8World 4 "p1" "p2" (some "rec")
    "landscape" "j" (.ok "t1") (.error "quota") "quota" (by decide)
    (by decide) (by decide) (Or.inr ⟨"t1", rfl, rfl⟩)

theorem schedInv_reachable (s : SchedState) (h : SchedReachable s) :
    SchedInv s := by
  induction h with
  | init => exact ⟨(fun _ => rfl), (fun hc => nomatch hc)⟩
  | @step s1 s2 hs hstep ih =>
      cases hstep with
      | enqueue op _ hpr =>
          exact ⟨(fun hf => ih.1 hf), (fun ht => ih.2 ht)⟩
      | start op _ hpr =>
          refine ⟨(fun hf => nomatch hf), (fun _ => ?_)⟩
          rw [ih.1 hpr]
          rfl
      | finish op _ rest hrun =>
          have hp : s1.isProcessing = true := by
            cases hpc : s1.isProcessing
            · have hemp : s1.running = [] := ih.1 hpc
              rw [hrun] at hemp
              cases hemp
            · rfl
          have hlen : s1.running.length = 1 := ih.2 hp
          have hrest : rest = [] := by
            rw [hrun] at hlen
            simpa using hlen
          subst hrest
          cases hq : s1.queue with
          | nil => exact ⟨(fun _ => rfl), (fun ht => nomatch ht)⟩
          | cons next qs => exact ⟨(fun hf => nomatch hf), (fun _ => rfl)⟩
      | startDownload d _ => exact ⟨ih.1, ih.2⟩
      | finishDownload d _ => exact ⟨ih.1, ih.2⟩

/-- C6: in every state the merge scheduler can reach from a fresh
`VideoService`, at most `maxConcurrentJobs` (= 1, the constructor's
constant — the `isProcessing` flag enforces exactly this bound, so any
configured bound N ≥ 1 also holds) merge operations are running; excess
submissions are queued (FIFO by the step relation: `enqueue` appends at
the tail and `finish` shifts the head); and a download step is enabled in
every state — downloads are not subject to the bound and may overlap
freely. -/
theorem c6_merge_concurrency_bound (s : SchedState)
    (h : SchedReachable s) :
    s.running.length ≤ maxConcurrentJobs ∧
    (∀ N : Nat, maxConcurrentJobs ≤ N → s.running.length ≤ N) ∧
    (∀ d : Nat, SchedStep s { s with downloads := s.downloads ++ [d] }) := by
  have hinv := schedInv_reachable s h
  have hlen : s.running.length ≤ 1 := by
    cases hp : s.isProcessing
    · rw [hinv.1 hp]
      exact Nat.zero_le 1
    · rw [hinv.2 hp]
  exact ⟨hlen, fun N hN => le_trans hlen hN,
    fun d => SchedStep.startDownload d s⟩

/-- Witness for C6 at a concrete reachable state: one merge running and
two queued after `start 1; enqueue 2; enqueue 3`. -/
theorem c6_merge_concurrency_bound_witness :
    ({ isProcessing := true, queue := [2, 3], running := [1],
       downloads := [] } : SchedState).running.length ≤ maxConcurrentJobs ∧
    (∀ N : Nat, maxConcurrentJobs ≤ N →
      ({ isProcessing := true, queue := [2, 3], running := [1],
         downloads := [] } : SchedState).running.length ≤ N) ∧
    (∀ d : Nat, SchedStep
      { isProcessing := true, queue := [2, 3], running := [1],
        downloads := [] }
      { isProcessing := true, queue := [2, 3], running := [1],
        downloads := [] ++ [d] }) :=
  c6_merge_concurrency_bound
    { isProcessing := true, queue := [2, 3], running := [1],
      downloads := [] }
    (SchedReachable.step
      (SchedReachable.step
        (SchedReachable.step SchedReachable.init
          (SchedStep.start 1 initSched rfl))
        (SchedStep.enqueue 2
          { isProcessing := true, queue := [], running := [1],
            downloads := [] } rfl))
      (SchedStep.enqueue 3
        { isProcessing := true, queue := [2], running := [1],
          downloads := [] } rfl))

/-- C7: the cleanup guarantee is broken on the download-failure path. When
the first download succeeds and the second fails, `processVideos` rejects
but deletes nothing: `[video1Path, video2Path, stitchedPath]` are all
unassigned because the destructuring assignment never ran, so the
already-downloaded `video1_<ts>.mp4` (and, for a stream failure, the
partial `video2_<ts>.mp4`) remain on disk. The stitch-failure and success
paths do clean up as claimed. -/
theorem c7_download_failure_leaves_artifacts :
    (processVideos [] 5 .ok .failEarly true).1 = ["video1_5.mp4"] ∧
    (processVideos [] 5 .ok .failEarly true).2 =
      Except.error "Failed to download video: request failed" ∧
    (processVideos [] 5 .ok .failStream true).1 =
      ["video1_5.mp4", "video2_5.mp4"] ∧
    (processVideos [] 5 .ok .ok false).1 = [] ∧
    (processVideos [] 5 .ok .ok true).1 = ["stitched_5.mp4"] := by
  decide
